import Mathlib

/-
Verification of the site-analyser ai-service scoring engine.

Shallow embedding of `app/models/risk_scoring/scoring_model.py`,
`app/models/threat_detection/classifier.py` and
`app/models/anomaly_detection/isolation_forest.py`.

Python floats are modelled by rationals; Python dict access via
`d.get(key, default)` is modelled by optional fields read through
`Option.getD` with the default value the source uses.
-/

namespace SiteAnalyser

/-- A scan finding: a dict with an optional severity string, a title, and an
optional name field (only the threat classifier reads the name field). -/
structure Finding where
  severity : Option String
  title : String
  fname : Option String
deriving DecidableEq

/-- The ssl group of a scan-data record; every field is read through
dict .get with the defaults shown in scoring_model.py. -/
structure SslInfo where
  is_valid : Bool
  days_to_expiry : Int
  cipher_strength : Nat
  has_pfs : Bool
  vulnerabilities : List String
deriving DecidableEq

/-- The headers group: truthiness of the seven security-header entries. -/
structure Headers where
  content_security_policy : Bool
  x_frame_options : Bool
  strict_transport_security : Bool
  x_content_type_options : Bool
  x_xss_protection : Bool
  referrer_policy : Bool
  permissions_policy : Bool
deriving DecidableEq

/-- The content_analysis group (counts are nonnegative integers per the
ContentAnalysisResult schema of the repository, defaults 0/false). -/
structure ContentAnalysis where
  external_script_count : Nat
  inline_script_count : Nat
  form_count : Nat
  input_field_count : Nat
  has_login_form : Bool
  cookie_count : Nat
  iframe_count : Nat
  suspicious_script_count : Nat
  external_link_count : Nat
  redirect_count : Nat
deriving DecidableEq

/-- The server_info group. -/
structure ServerInfo where
  version_disclosed : Bool
  is_outdated : Bool
  open_port_count : Nat
  vulnerability_count : Nat
  exposed_services : List String
deriving DecidableEq

/-- The domain_reputation group. -/
structure DomainReputation where
  is_blacklisted : Bool
  has_malware_history : Bool
  has_phishing_history : Bool
  risk_score : Nat
deriving DecidableEq

/-- A scan-data record for the risk scorer and threat classifier: every
group is optional; an absent group behaves like the empty dict. -/
structure ScanData where
  findings : List Finding
  ssl : Option SslInfo
  headers : Option Headers
  content_analysis : Option ContentAnalysis
  server_info : Option ServerInfo
  domain_reputation : Option DomainReputation
  misconfigurations : List String
deriving DecidableEq

/-- Reading a field of an absent ssl dict yields the .get default. -/
def emptySsl : SslInfo :=
  { is_valid := false, days_to_expiry := 0, cipher_strength := 0,
    has_pfs := false, vulnerabilities := [] }

/-- Reading a field of an absent headers dict yields falsy. -/
def emptyHeaders : Headers :=
  { content_security_policy := false, x_frame_options := false,
    strict_transport_security := false, x_content_type_options := false,
    x_xss_protection := false, referrer_policy := false,
    permissions_policy := false }

/-- Reading a field of an absent content_analysis dict yields the default. -/
def emptyContent : ContentAnalysis :=
  { external_script_count := 0, inline_script_count := 0, form_count := 0,
    input_field_count := 0, has_login_form := false, cookie_count := 0,
    iframe_count := 0, suspicious_script_count := 0,
    external_link_count := 0, redirect_count := 0 }

/-- Reading a field of an absent server_info dict yields the default. -/
def emptyServer : ServerInfo :=
  { version_disclosed := false, is_outdated := false, open_port_count := 0,
    vulnerability_count := 0, exposed_services := [] }

/-- Reading a field of an absent domain_reputation dict yields the default. -/
def emptyReputation : DomainReputation :=
  { is_blacklisted := false, has_malware_history := false,
    has_phishing_history := false, risk_score := 0 }

/-- The keys of the severity_counts dict, in insertion order. -/
def severityNames : List String := ["Critical", "High", "Medium", "Low", "Info"]

/-- Number of findings whose severity equals the given key (findings with a
missing or unrecognized severity are not counted anywhere). -/
def countSeverity (findings : List Finding) (s : String) : Nat :=
  (findings.filter (fun f => f.severity == some s)).length

/-- severity_counts.values() in dict insertion order. -/
def severityCounts (findings : List Finding) : List Nat :=
  severityNames.map (countSeverity findings)

/-- Embedding of scoring_model._extract_features: the 31-entry risk feature
vector (5 severity counts, 5 ssl, 7 header, 6 content, 4 server,
4 reputation features). -/
def extract_features (sd : ScanData) : List Rat :=
  let sev : List Rat := (severityCounts sd.findings).map (fun n => (n : Rat))
  let ssl := sd.ssl.getD emptySsl
  let sslF : List Rat :=
    [if ssl.is_valid then 1 else 0,
     min ((ssl.days_to_expiry : Rat) / 365) 1,
     (ssl.cipher_strength : Rat) / 256,
     if ssl.has_pfs then 1 else 0,
     if ssl.vulnerabilities.isEmpty then 1 else 0]
  let h := sd.headers.getD emptyHeaders
  let headerF : List Rat :=
    [if h.content_security_policy then 1 else 0,
     if h.x_frame_options then 1 else 0,
     if h.strict_transport_security then 1 else 0,
     if h.x_content_type_options then 1 else 0,
     if h.x_xss_protection then 1 else 0,
     if h.referrer_policy then 1 else 0,
     if h.permissions_policy then 1 else 0]
  let c := sd.content_analysis.getD emptyContent
  let contentF : List Rat :=
    [min ((c.external_script_count : Rat) / 10) 1,
     min ((c.inline_script_count : Rat) / 10) 1,
     min ((c.form_count : Rat) / 5) 1,
     min ((c.input_field_count : Rat) / 10) 1,
     if c.has_login_form then 1 else 0,
     min ((c.cookie_count : Rat) / 5) 1]
  let s := sd.server_info.getD emptyServer
  let serverF : List Rat :=
    [if s.version_disclosed then 1 else 0,
     if s.is_outdated then 1 else 0,
     (s.open_port_count : Rat) / 10,
     min ((s.vulnerability_count : Rat) / 5) 1]
  let r := sd.domain_reputation.getD emptyReputation
  let repF : List Rat :=
    [if r.is_blacklisted then 1 else 0,
     if r.has_malware_history then 1 else 0,
     if r.has_phishing_history then 1 else 0,
     min ((r.risk_score : Rat) / 100) 1]
  sev ++ sslF ++ headerF ++ contentF ++ serverF ++ repF

/-- severity_weights table of _calculate_vulnerability_score; the severity
key is finding.get with default "Low", unknown keys weigh 0. -/
def severityWeightStr (s : String) : Rat :=
  if s = "Critical" then 100
  else if s = "High" then 80
  else if s = "Medium" then 50
  else if s = "Low" then 20
  else 0

/-- Embedding of _calculate_vulnerability_score: mean severity weight over
all findings, 0 when there are none, capped at 100. -/
def calculate_vulnerability_score (sd : ScanData) : Rat :=
  if sd.findings.isEmpty then 0
  else
    min 100
      ((sd.findings.map (fun f => severityWeightStr (f.severity.getD "Low"))).sum
        / (sd.findings.length : Rat))

/-- Number of the six required security headers that are missing. -/
def missingHeaders (h : Headers) : Nat :=
  (if h.content_security_policy then 0 else 1)
  + (if h.x_frame_options then 0 else 1)
  + (if h.strict_transport_security then 0 else 1)
  + (if h.x_content_type_options then 0 else 1)
  + (if h.x_xss_protection then 0 else 1)
  + (if h.referrer_policy then 0 else 1)

/-- The header_score local of _calculate_compliance_score. -/
def header_score (sd : ScanData) : Rat :=
  ((6 : Rat) - (missingHeaders (sd.headers.getD emptyHeaders) : Rat)) / 6 * 100

/-- The deduction applied for invalid SSL (50 when not valid). -/
def ssl_invalid_penalty (ssl : SslInfo) : Rat :=
  if ssl.is_valid then 0 else 50

/-- The deduction applied for SSL vulnerabilities: min(50, 10 per entry),
applied only when the vulnerability list is truthy (nonempty). -/
def ssl_vuln_penalty (ssl : SslInfo) : Rat :=
  if ssl.vulnerabilities.isEmpty then 0
  else min 50 ((ssl.vulnerabilities.length : Rat) * 10)

/-- Total amount subtracted from the starting ssl_score of 100. -/
def ssl_penalty (ssl : SslInfo) : Rat :=
  ssl_invalid_penalty ssl + ssl_vuln_penalty ssl

/-- The ssl_score local of _calculate_compliance_score. -/
def ssl_score (sd : ScanData) : Rat :=
  100 - ssl_penalty (sd.ssl.getD emptySsl)

/-- Embedding of _calculate_compliance_score (other_factors is always 100,
so its weighted term vanishes). -/
def calculate_compliance_score (sd : ScanData) : Rat :=
  100 - ((100 - header_score sd) * (3/10) + (100 - ssl_score sd) * (5/10)
    + (100 - (100 : Rat)) * (2/10))

/-- Embedding of _calculate_exposure_score. -/
def calculate_exposure_score (sd : ScanData) : Rat :=
  let si := sd.server_info.getD emptyServer
  let port_score : Rat := min 100 ((si.open_port_count : Rat) * 10)
  let disclosure_score : Rat := if si.version_disclosed then 30 else 0
  let services_score : Rat := min 100 ((si.exposed_services.length : Rat) * 20)
  port_score * (4/10) + disclosure_score * (3/10) + services_score * (3/10)

/-- Embedding of _calculate_configuration_score. -/
def calculate_configuration_score (sd : ScanData) : Rat :=
  let si := sd.server_info.getD emptyServer
  let ssl := sd.ssl.getD emptySsl
  min 100
    ((if si.is_outdated then (40 : Rat) else 0)
      + (if ssl.has_pfs then 0 else 30)
      + (if ssl.is_valid ∧ ssl.days_to_expiry < 30 then 20 else 0)
      + min 30 ((sd.misconfigurations.length : Rat) * 10))

/-- Embedding of _calculate_content_score. -/
def calculate_content_score (sd : ScanData) : Rat :=
  let c := sd.content_analysis.getD emptyContent
  min 100
    (min 40 ((c.external_script_count : Rat) * 8)
      + (if c.has_login_form then (30 : Rat) else 0)
      + min 20 ((c.iframe_count : Rat) * 10))

/-- Embedding of _calculate_reputation_score. -/
def calculate_reputation_score (sd : ScanData) : Rat :=
  let r := sd.domain_reputation.getD emptyReputation
  min 100
    ((r.risk_score : Rat)
      + (if r.is_blacklisted then (50 : Rat) else 0)
      + (if r.has_malware_history then (30 : Rat) else 0)
      + (if r.has_phishing_history then (30 : Rat) else 0))

/-- The weighted overall score computed by _rule_based_scoring with the
RISK_CATEGORIES weights. -/
def rule_based_overall_score (sd : ScanData) : Rat :=
  calculate_vulnerability_score sd * (30/100)
  + calculate_compliance_score sd * (20/100)
  + calculate_exposure_score sd * (15/100)
  + calculate_configuration_score sd * (15/100)
  + calculate_content_score sd * (10/100)
  + calculate_reputation_score sd * (10/100)

/-- The RISK_LEVELS table: closed-open score ranges with level and color. -/
def RISK_LEVELS : List ((Rat × Rat) × (String × String)) :=
  [((0, 20), ("Low", "#4CAF50")),
   ((20, 40), ("Moderate", "#FFC107")),
   ((40, 60), ("Medium", "#FF9800")),
   ((60, 80), ("High", "#F44336")),
   ((80, 101), ("Critical", "#9C27B0"))]

/-- Embedding of _get_risk_level: first table row whose closed-open range
holds the score, defaulting to the Critical row. -/
def get_risk_level (score : Rat) : String × String :=
  ((RISK_LEVELS.find? (fun e => decide (e.1.1 ≤ score ∧ score < e.1.2))).getD
    ((80, 101), ("Critical", "#9C27B0"))).2

/-- The fields of the _rule_based_scoring result that the claims mention
(category_scores are the six functions above paired with their weights). -/
structure RiskResult where
  overall_score : Rat
  risk_level : String
  risk_color : String
  scoring_method : String
deriving DecidableEq

/-- Embedding of _rule_based_scoring (the reported overall_score is this
value rounded to one decimal for display; the risk level is computed from
the unrounded value as in the source). -/
def rule_based_scoring (sd : ScanData) : RiskResult :=
  { overall_score := rule_based_overall_score sd,
    risk_level := (get_risk_level (rule_based_overall_score sd)).1,
    risk_color := (get_risk_level (rule_based_overall_score sd)).2,
    scoring_method := "rule_based" }

/-- The clamp of the model prediction in _ml_based_scoring. -/
def ml_clamped_score (prediction : Rat) : Rat :=
  max 0 (min 100 prediction)

/-- Spec-side bucket table, written from the words of the specification: the
closed-open buckets [0,20) Low, [20,40) Moderate, [40,60) Medium,
[60,80) High, [80,101) Critical, for scores in [0,101). -/
def bucketLevel (q : Rat) : String :=
  if q < 20 then "Low"
  else if q < 40 then "Moderate"
  else if q < 60 then "Medium"
  else if q < 80 then "High"
  else "Critical"

/-- The THREAT_CATEGORIES list of classifier.py, in order. -/
def THREAT_CATEGORIES : List String :=
  ["malware", "phishing", "command_injection", "sql_injection", "xss",
   "csrf", "open_redirect", "insecure_deserialization", "none"]

/-- The fields of a classify_threats result that the claims mention (the
per-category detail map and the recommendation strings are display data
derived from these three fields). -/
structure ThreatResult where
  threat_detected : Bool
  primary_threat_type : String
  threat_confidence : Rat
deriving DecidableEq

/-- Whether the character list n occurs as a prefix of h (the start of the
Python in-operator on strings). -/
def charsLead : List Char → List Char → Bool
  | [], _ => true
  | _ :: _, [] => false
  | a :: as, b :: bs => a == b && charsLead as bs

/-- Whether the character list n occurs contiguously inside h. -/
def charsInside (n : List Char) : List Char → Bool
  | [] => n.isEmpty
  | c :: cs => charsLead n (c :: cs) || charsInside n cs

/-- The Python expression needle in hay on strings. -/
def containsSub (hay needle : String) : Bool :=
  charsInside needle.toList hay.toList

/-- Embedding of the Python str.lower call applied to finding names (the
strings involved are ASCII). -/
def strLower (s : String) : String :=
  String.mk (s.data.map Char.toLower)

/-- The if/elif keyword chain of _fallback_detection, applied to the
lowercased name fields of the critical findings. -/
def keywordThreatType (finding_names : List String) : String :=
  if finding_names.any (fun n => containsSub n "sql") then "sql_injection"
  else if finding_names.any (fun n => containsSub n "xss") then "xss"
  else if finding_names.any (fun n => containsSub n "csrf") then "csrf"
  else if finding_names.any (fun n => containsSub n "redirect") then "open_redirect"
  else if finding_names.any (fun n => containsSub n "injection") then "command_injection"
  else if finding_names.any
      (fun n => containsSub n "serialize" || containsSub n "deserialize") then
    "insecure_deserialization"
  else "malware"

/-- Embedding of _fallback_detection: critical findings force a detection
with confidence 0.8 and a keyword-derived type read from the finding
name field (absent names read as the empty string); a phishing signal from
forms plus suspicious scripts overrides when its confidence is higher. -/
def fallback_detection (sd : ScanData) : ThreatResult :=
  let content := sd.content_analysis.getD emptyContent
  let criticals := sd.findings.filter (fun f => f.severity == some "Critical")
  let base : ThreatResult :=
    if criticals.isEmpty then
      { threat_detected := false, primary_threat_type := "none", threat_confidence := 0 }
    else
      { threat_detected := true,
        primary_threat_type :=
          keywordThreatType (criticals.map (fun f => strLower (f.fname.getD ""))),
        threat_confidence := 8/10 }
  if 0 < content.form_count ∧ 0 < content.suspicious_script_count then
    let phishing_confidence : Rat :=
      min (7/10)
        (3/10 + (content.form_count : Rat) * (1/10)
          + (content.suspicious_script_count : Rat) * (1/10))
    if base.threat_confidence < phishing_confidence then
      { threat_detected := true, primary_threat_type := "phishing",
        threat_confidence := phishing_confidence }
    else base
  else base

/-- One step of the primary-threat loop of classify_threats: a non-none
category with a strictly higher probability replaces the running best. -/
def threatStep (acc : String × Rat) (cp : String × Rat) : String × Rat :=
  if cp.1 ≠ "none" ∧ acc.2 < cp.2 then cp else acc

/-- The primary-threat loop of classify_threats over the per-category
probabilities returned by the model, starting from none with confidence 0. -/
def threatLoop (probs : List Rat) : String × Rat :=
  (THREAT_CATEGORIES.zip probs).foldl threatStep ("none", 0)

/-- Embedding of the model path of classify_threats, parametrized by the
probability vector the loaded model returns for the nine categories:
threat_detected is set exactly when the best non-none probability reaches
the 0.6 threshold. -/
def classify_from_probs (probs : List Rat) : ThreatResult :=
  let best := threatLoop probs
  { threat_detected := decide ((6/10 : Rat) ≤ best.2),
    primary_threat_type := best.1,
    threat_confidence := best.2 }

/-- The summary group read by the anomaly extractor. -/
structure AnomalySummary where
  overall : Rat
  ssl : Rat
  headers : Rat
  vulnerabilities : Rat
  server : Rat
deriving DecidableEq

/-- Reading a field of an absent summary dict yields 0. -/
def emptySummary : AnomalySummary :=
  { overall := 0, ssl := 0, headers := 0, vulnerabilities := 0, server := 0 }

/-- The scan-data shape read by isolation_forest._extract_features: here
the headers and ssl groups are lists of severity-bearing items. -/
structure AnomalyScanData where
  summary : Option AnomalySummary
  findings : List Finding
  headers : List Finding
  ssl : List Finding
deriving DecidableEq

/-- Embedding of isolation_forest._extract_features: 5 summary scores,
5 severity counts pooled over findings, headers and ssl, and 2 ratio
features (0 when there are no counted items). -/
def anomaly_extract_features (sd : AnomalyScanData) : List Rat :=
  let s := sd.summary.getD emptySummary
  let counts : List Nat := severityNames.map (fun nm =>
    countSeverity sd.findings nm + countSeverity sd.headers nm + countSeverity sd.ssl nm)
  let total : Nat := counts.sum
  let crit : Nat := countSeverity sd.findings "Critical" + countSeverity sd.headers "Critical"
    + countSeverity sd.ssl "Critical"
  let high : Nat := countSeverity sd.findings "High" + countSeverity sd.headers "High"
    + countSeverity sd.ssl "High"
  let ratios : List Rat :=
    if 0 < total then [(crit : Rat) / (total : Rat), ((crit : Rat) + (high : Rat)) / (total : Rat)]
    else [0, 0]
  [s.overall, s.ssl, s.headers, s.vulnerabilities, s.server]
    ++ counts.map (fun n => (n : Rat)) ++ ratios

/-- Embedding of the StandardScaler freshly fit on the single 1-by-12 row in
detect_anomalies: the per-column mean is the single entry itself and its
variance is 0 (sklearn then uses scale 1), so every entry maps to 0. -/
def standardScaleSingle (v : List Rat) : List Rat :=
  v.map (fun x => (x - x) / 1)

/-- Embedding of the data path of detect_anomalies, parametrized by the
predict function of the persisted model (-1 flags an anomaly, 1 is normal). -/
def detect_anomalies (predict : List Rat → Int) (sd : AnomalyScanData) : Bool :=
  decide (predict (standardScaleSingle (anomaly_extract_features sd)) = -1)

/-- Embedding of the full body of the try block of detect_anomalies as a
fallible pipeline: loading (which includes the on-demand training of a
missing model) and prediction may fail; extraction and scaling are total. -/
def detect_anomalies_run (loadModel : Except String (List Rat → Except String Int))
    (sd : AnomalyScanData) : Except String Bool := do
  let model ← loadModel
  let r ← model (standardScaleSingle (anomaly_extract_features sd))
  pure (decide (r = -1))

/-- Embedding of detect_anomalies with its catch-all handler: any error in
the pipeline yields False (not anomalous). -/
def detect_anomalies_safe (loadModel : Except String (List Rat → Except String Int))
    (sd : AnomalyScanData) : Bool :=
  match detect_anomalies_run loadModel sd with
  | Except.ok b => b
  | Except.error _ => false

/-- The sample_scan_data fixture of tests/models/test_risk_scoring.py
(the low-risk fixture: valid SSL, five headers set, two mild findings). -/
def lowFixture : ScanData :=
  { findings := [⟨some "Medium", "Finding 1", none⟩, ⟨some "Low", "Finding 2", none⟩],
    ssl := some { is_valid := true, days_to_expiry := 90, cipher_strength := 128,
                  has_pfs := true, vulnerabilities := [] },
    headers := some { content_security_policy := true, x_frame_options := true,
                      strict_transport_security := true, x_content_type_options := true,
                      x_xss_protection := true, referrer_policy := false,
                      permissions_policy := false },
    content_analysis := some { emptyContent with
      external_script_count := 2, inline_script_count := 1, form_count := 1,
      input_field_count := 3, cookie_count := 2 },
    server_info := some { version_disclosed := false, is_outdated := false,
                          open_port_count := 2, vulnerability_count := 0,
                          exposed_services := [] },
    domain_reputation := some { is_blacklisted := false, has_malware_history := false,
                                has_phishing_history := false, risk_score := 5 },
    misconfigurations := [] }

/-- The high_risk_scan_data fixture of tests/models/test_risk_scoring.py. -/
def highFixture : ScanData :=
  { findings := [⟨some "Critical", "Critical Finding", none⟩,
                 ⟨some "High", "High Finding 1", none⟩,
                 ⟨some "High", "High Finding 2", none⟩],
    ssl := some { is_valid := false, days_to_expiry := 5, cipher_strength := 64,
                  has_pfs := false, vulnerabilities := ["POODLE", "HEARTBLEED"] },
    headers := some emptyHeaders,
    content_analysis := some { emptyContent with
      external_script_count := 8, inline_script_count := 5, form_count := 3,
      input_field_count := 12, has_login_form := true, cookie_count := 10 },
    server_info := some { version_disclosed := true, is_outdated := true,
                          open_port_count := 15, vulnerability_count := 5,
                          exposed_services := [] },
    domain_reputation := some { is_blacklisted := true, has_malware_history := true,
                                has_phishing_history := true, risk_score := 85 },
    misconfigurations := [] }

/-- Decidable rendering of the high-risk fixture shape named by the claim:
at least 3 High or Critical findings, invalid SSL carrying 2 SSL
vulnerabilities, all six required headers missing, an outdated server and a
blacklisted domain. -/
def matchesHighShape (sd : ScanData) : Bool :=
  decide (3 ≤ (sd.findings.filter
      (fun f => f.severity == some "Critical" || f.severity == some "High")).length)
  && !(sd.ssl.getD emptySsl).is_valid
  && decide ((sd.ssl.getD emptySsl).vulnerabilities.length = 2)
  && decide (missingHeaders (sd.headers.getD emptyHeaders) = 6)
  && (sd.server_info.getD emptyServer).is_outdated
  && (sd.domain_reputation.getD emptyReputation).is_blacklisted

/-- An input matching the high-risk fixture shape while carrying no
exposure or content signals and a server that is only outdated. -/
def bareHighShape : ScanData :=
  { findings := [⟨some "Critical", "c1", none⟩, ⟨some "Critical", "c2", none⟩,
                 ⟨some "Critical", "c3", none⟩],
    ssl := some { is_valid := false, days_to_expiry := 0, cipher_strength := 0,
                  has_pfs := true, vulnerabilities := ["POODLE", "HEARTBLEED"] },
    headers := none,
    content_analysis := none,
    server_info := some { emptyServer with is_outdated := true },
    domain_reputation := some { emptyReputation with is_blacklisted := true },
    misconfigurations := [] }

/-- A fully compliant scan: no findings, all headers present, valid
long-lived SSL with perfect forward secrecy and no vulnerabilities, and no
server, content or reputation risk. -/
def fullyCompliant : ScanData :=
  { findings := [],
    ssl := some { is_valid := true, days_to_expiry := 365, cipher_strength := 256,
                  has_pfs := true, vulnerabilities := [] },
    headers := some { content_security_policy := true, x_frame_options := true,
                      strict_transport_security := true, x_content_type_options := true,
                      x_xss_protection := true, referrer_policy := true,
                      permissions_policy := true },
    content_analysis := none,
    server_info := none,
    domain_reputation := none,
    misconfigurations := [] }

/-- The fully compliant scan with one required header (referrer_policy)
missing: its compliance score drops to 95 and its overall score to 19. -/
def oneHeaderShort : ScanData :=
  { fullyCompliant with
    headers := some { content_security_policy := true, x_frame_options := true,
                      strict_transport_security := true, x_content_type_options := true,
                      x_xss_protection := true, referrer_policy := false,
                      permissions_policy := true } }

/-- A scan with no findings, one form and one suspicious script: the
fallback phishing branch fires at confidence 0.5. -/
def phishLowConf : ScanData :=
  { findings := [],
    ssl := none, headers := none,
    content_analysis := some { emptyContent with
      form_count := 1, suspicious_script_count := 1 },
    server_info := none, domain_reputation := none, misconfigurations := [] }

/-- Three Critical findings whose titles contain sql, shaped as the
finding schema of the repository prescribes (title field, no name field). -/
def sqlTitled : ScanData :=
  { findings := [⟨some "Critical", "SQL Injection in login form", none⟩,
                 ⟨some "Critical", "Blind SQL injection", none⟩,
                 ⟨some "Critical", "SQL error message disclosure", none⟩],
    ssl := none, headers := none, content_analysis := none,
    server_info := none, domain_reputation := none, misconfigurations := [] }

/-- The same three findings with the titles duplicated into the name field
the classifier actually reads. -/
def sqlNamed : ScanData :=
  { sqlTitled with
    findings := [⟨some "Critical", "SQL Injection in login form",
                    some "SQL Injection in login form"⟩,
                 ⟨some "Critical", "Blind SQL injection", some "Blind SQL injection"⟩,
                 ⟨some "Critical", "SQL error message disclosure",
                    some "SQL error message disclosure"⟩] }

/-- The sample_scan_data fixture of tests/models/test_anomaly_detection.py
(the normal point). -/
def anomalyNormalFixture : AnomalyScanData :=
  { summary := some { overall := 75, ssl := 80, headers := 70,
                      vulnerabilities := 60, server := 85 },
    findings := [⟨some "Medium", "Finding 1", none⟩, ⟨some "Low", "Finding 2", none⟩],
    headers := [⟨some "Medium", "Header issue", none⟩],
    ssl := [⟨some "Low", "SSL issue", none⟩] }

/-- The anomalous_scan_data fixture of tests/models/test_anomaly_detection.py
(the point the own test of the repository expects to be flagged). -/
def anomalyOutlierFixture : AnomalyScanData :=
  { summary := some { overall := 35, ssl := 30, headers := 40,
                      vulnerabilities := 25, server := 45 },
    findings := [⟨some "Critical", "Critical Finding", none⟩,
                 ⟨some "High", "High Finding", none⟩,
                 ⟨some "High", "Another High Finding", none⟩],
    headers := [⟨some "High", "Serious Header issue", none⟩],
    ssl := [⟨some "Critical", "Critical SSL issue", none⟩] }

/-- A deliberately extreme outlier: severity counts far above the synthetic
normal means of the seed-42 generator. -/
def anomalyExtremeOutlier : AnomalyScanData :=
  { summary := some { overall := 0, ssl := 0, headers := 0,
                      vulnerabilities := 0, server := 0 },
    findings := List.replicate 20 ⟨some "Critical", "flood", none⟩
      ++ List.replicate 20 ⟨some "High", "flood", none⟩,
    headers := [], ssl := [] }

/-- A point sitting at the synthetic normal means (every feature 1/2). -/
def anomalyNearMeans : AnomalyScanData :=
  { summary := some { overall := 1/2, ssl := 1/2, headers := 1/2,
                      vulnerabilities := 1/2, server := 1/2 },
    findings := [], headers := [], ssl := [] }

/-- A scan-data record with every optional group absent. -/
def emptyScan : ScanData :=
  { findings := [], ssl := none, headers := none, content_analysis := none,
    server_info := none, domain_reputation := none, misconfigurations := [] }

/-- An SslInfo that is invalid and carries five vulnerabilities: both SSL
deductions reach their individual maximum. -/
def sslInvalidFiveVulns : SslInfo :=
  { is_valid := false, days_to_expiry := 0, cipher_strength := 0,
    has_pfs := false, vulnerabilities := ["a", "b", "c", "d", "e"] }

lemma severityWeightStr_nonneg (s : String) : 0 ≤ severityWeightStr s := by
  unfold severityWeightStr
  split_ifs <;> norm_num

lemma severityWeightStr_le (s : String) : severityWeightStr s ≤ 100 := by
  unfold severityWeightStr
  split_ifs <;> norm_num

lemma vulnerability_score_nonneg (sd : ScanData) : 0 ≤ calculate_vulnerability_score sd := by
  unfold calculate_vulnerability_score
  split_ifs with h
  · norm_num
  · refine le_min (by norm_num) (div_nonneg ?_ (Nat.cast_nonneg _))
    refine List.sum_nonneg ?_
    intro x hx
    obtain ⟨f, _, rfl⟩ := List.mem_map.mp hx
    exact severityWeightStr_nonneg _

lemma vulnerability_score_le (sd : ScanData) : calculate_vulnerability_score sd ≤ 100 := by
  unfold calculate_vulnerability_score
  split_ifs with h
  · norm_num
  · exact min_le_left _ _

lemma missingHeaders_le (h : Headers) : missingHeaders h ≤ 6 := by
  unfold missingHeaders
  split_ifs <;> norm_num

lemma header_score_bounds (sd : ScanData) :
    0 ≤ header_score sd ∧ header_score sd ≤ 100 := by
  have hm : (missingHeaders (sd.headers.getD emptyHeaders) : Rat) ≤ 6 := by
    exact_mod_cast missingHeaders_le _
  have hm0 : (0 : Rat) ≤ (missingHeaders (sd.headers.getD emptyHeaders) : Rat) :=
    Nat.cast_nonneg _
  unfold header_score
  constructor
  · have h6 : (0 : Rat) ≤ 6 - (missingHeaders (sd.headers.getD emptyHeaders) : Rat) := by
      linarith
    exact mul_nonneg (div_nonneg h6 (by norm_num)) (by norm_num)
  · rw [div_mul_eq_mul_div, div_le_iff₀ (by norm_num : (0 : Rat) < 6)]
    linarith

lemma ssl_invalid_penalty_bounds (ssl : SslInfo) :
    0 ≤ ssl_invalid_penalty ssl ∧ ssl_invalid_penalty ssl ≤ 50 := by
  unfold ssl_invalid_penalty
  split_ifs <;> norm_num

lemma ssl_vuln_penalty_nonneg (ssl : SslInfo) : 0 ≤ ssl_vuln_penalty ssl := by
  unfold ssl_vuln_penalty
  split_ifs with h
  · norm_num
  · exact le_min (by norm_num) (by positivity)

lemma ssl_vuln_penalty_le (ssl : SslInfo) : ssl_vuln_penalty ssl ≤ 50 := by
  unfold ssl_vuln_penalty
  split_ifs with h
  · norm_num
  · exact min_le_left _ _

lemma ssl_penalty_nonneg (ssl : SslInfo) : 0 ≤ ssl_penalty ssl := by
  have h1 := (ssl_invalid_penalty_bounds ssl).1
  have h2 := ssl_vuln_penalty_nonneg ssl
  unfold ssl_penalty
  linarith

lemma ssl_penalty_le (ssl : SslInfo) : ssl_penalty ssl ≤ 100 := by
  have h1 := (ssl_invalid_penalty_bounds ssl).2
  have h2 := ssl_vuln_penalty_le ssl
  unfold ssl_penalty
  linarith

lemma ssl_score_bounds (sd : ScanData) : 0 ≤ ssl_score sd ∧ ssl_score sd ≤ 100 := by
  have h1 := ssl_penalty_nonneg (sd.ssl.getD emptySsl)
  have h2 := ssl_penalty_le (sd.ssl.getD emptySsl)
  unfold ssl_score
  constructor <;> linarith

lemma compliance_score_bounds (sd : ScanData) :
    20 ≤ calculate_compliance_score sd ∧ calculate_compliance_score sd ≤ 100 := by
  obtain ⟨h1, h2⟩ := header_score_bounds sd
  obtain ⟨h3, h4⟩ := ssl_score_bounds sd
  unfold calculate_compliance_score
  constructor <;> linarith

lemma exposure_score_bounds (sd : ScanData) :
    0 ≤ calculate_exposure_score sd ∧ calculate_exposure_score sd ≤ 100 := by
  unfold calculate_exposure_score
  have hp0 : (0 : Rat) ≤
      min 100 (((sd.server_info.getD emptyServer).open_port_count : Rat) * 10) :=
    le_min (by norm_num) (by positivity)
  have hp1 : min 100 (((sd.server_info.getD emptyServer).open_port_count : Rat) * 10)
      ≤ 100 := min_le_left _ _
  have hs0 : (0 : Rat) ≤
      min 100 (((sd.server_info.getD emptyServer).exposed_services.length : Rat) * 20) :=
    le_min (by norm_num) (by positivity)
  have hs1 : min 100 (((sd.server_info.getD emptyServer).exposed_services.length : Rat) * 20)
      ≤ 100 := min_le_left _ _
  have hd : (0 : Rat) ≤ (if (sd.server_info.getD emptyServer).version_disclosed
        then (30 : Rat) else 0) ∧
      (if (sd.server_info.getD emptyServer).version_disclosed then (30 : Rat) else 0)
        ≤ 30 := by
    split_ifs <;> norm_num
  constructor <;> linarith [hd.1, hd.2]

lemma configuration_score_bounds (sd : ScanData) :
    0 ≤ calculate_configuration_score sd ∧ calculate_configuration_score sd ≤ 100 := by
  unfold calculate_configuration_score
  refine ⟨le_min (by norm_num) ?_, min_le_left _ _⟩
  have h1 : (0 : Rat) ≤ (if (sd.server_info.getD emptyServer).is_outdated
      then (40 : Rat) else 0) := by split_ifs <;> norm_num
  have h2 : (0 : Rat) ≤ (if (sd.ssl.getD emptySsl).has_pfs then (0 : Rat) else 30) := by
    split_ifs <;> norm_num
  have h3 : (0 : Rat) ≤ (if (sd.ssl.getD emptySsl).is_valid
      ∧ (sd.ssl.getD emptySsl).days_to_expiry < 30 then (20 : Rat) else 0) := by
    split_ifs <;> norm_num
  have h4 : (0 : Rat) ≤ min 30 ((sd.misconfigurations.length : Rat) * 10) :=
    le_min (by norm_num) (by positivity)
  linarith

lemma content_score_bounds (sd : ScanData) :
    0 ≤ calculate_content_score sd ∧ calculate_content_score sd ≤ 100 := by
  unfold calculate_content_score
  refine ⟨le_min (by norm_num) ?_, min_le_left _ _⟩
  have h1 : (0 : Rat) ≤
      min 40 (((sd.content_analysis.getD emptyContent).external_script_count : Rat) * 8) :=
    le_min (by norm_num) (by positivity)
  have h2 : (0 : Rat) ≤ (if (sd.content_analysis.getD emptyContent).has_login_form
      then (30 : Rat) else 0) := by split_ifs <;> norm_num
  have h3 : (0 : Rat) ≤
      min 20 (((sd.content_analysis.getD emptyContent).iframe_count : Rat) * 10) :=
    le_min (by norm_num) (by positivity)
  linarith

lemma reputation_score_bounds (sd : ScanData) :
    0 ≤ calculate_reputation_score sd ∧ calculate_reputation_score sd ≤ 100 := by
  unfold calculate_reputation_score
  refine ⟨le_min (by norm_num) ?_, min_le_left _ _⟩
  have h0 : (0 : Rat) ≤ ((sd.domain_reputation.getD emptyReputation).risk_score : Rat) :=
    Nat.cast_nonneg _
  have h1 : (0 : Rat) ≤ (if (sd.domain_reputation.getD emptyReputation).is_blacklisted
      then (50 : Rat) else 0) := by split_ifs <;> norm_num
  have h2 : (0 : Rat) ≤ (if (sd.domain_reputation.getD emptyReputation).has_malware_history
      then (30 : Rat) else 0) := by split_ifs <;> norm_num
  have h3 : (0 : Rat) ≤ (if (sd.domain_reputation.getD emptyReputation).has_phishing_history
      then (30 : Rat) else 0) := by split_ifs <;> norm_num
  linarith

lemma overall_score_bounds (sd : ScanData) :
    0 ≤ rule_based_overall_score sd ∧ rule_based_overall_score sd ≤ 100 := by
  have v0 := vulnerability_score_nonneg sd
  have v1 := vulnerability_score_le sd
  obtain ⟨c0, c1⟩ := compliance_score_bounds sd
  obtain ⟨e0, e1⟩ := exposure_score_bounds sd
  obtain ⟨g0, g1⟩ := configuration_score_bounds sd
  obtain ⟨t0, t1⟩ := content_score_bounds sd
  obtain ⟨r0, r1⟩ := reputation_score_bounds sd
  unfold rule_based_overall_score
  constructor <;> linarith

lemma get_risk_level_eq_bucket (q : Rat) (h0 : 0 ≤ q) (h1 : q < 101) :
    (get_risk_level q).1 = bucketLevel q := by
  unfold get_risk_level RISK_LEVELS bucketLevel
  by_cases h20 : q < 20
  · rw [List.find?_cons_of_pos _ (by simp only [decide_eq_true_eq]; exact ⟨h0, h20⟩)]
    simp [h20]
  · rw [List.find?_cons_of_neg _ (by simp [h20])]
    by_cases h40 : q < 40
    · rw [List.find?_cons_of_pos _
        (by simp only [decide_eq_true_eq]; exact ⟨le_of_not_lt h20, h40⟩)]
      simp [h20, h40]
    · rw [List.find?_cons_of_neg _ (by simp [h40])]
      by_cases h60 : q < 60
      · rw [List.find?_cons_of_pos _
          (by simp only [decide_eq_true_eq]; exact ⟨le_of_not_lt h40, h60⟩)]
        simp [h20, h40, h60]
      · rw [List.find?_cons_of_neg _ (by simp [h60])]
        by_cases h80 : q < 80
        · rw [List.find?_cons_of_pos _
            (by simp only [decide_eq_true_eq]; exact ⟨le_of_not_lt h60, h80⟩)]
          simp [h20, h40, h60, h80]
        · rw [List.find?_cons_of_neg _ (by simp [h80])]
          rw [List.find?_cons_of_pos _
            (by simp only [decide_eq_true_eq]; exact ⟨le_of_not_lt h80, h1⟩)]
          simp [h20, h40, h60, h80]

lemma anomaly_features_length (sd : AnomalyScanData) :
    (anomaly_extract_features sd).length = 12 := by
  simp only [anomaly_extract_features]
  split_ifs <;> simp [severityNames]

lemma standardScaleSingle_eq_replicate (v : List Rat) :
    standardScaleSingle v = List.replicate v.length 0 := by
  unfold standardScaleSingle
  induction v with
  | nil => rfl
  | cons a t ih => simp [List.replicate_succ, ih, sub_self, zero_div]

lemma scaled_features_const (sd : AnomalyScanData) :
    standardScaleSingle (anomaly_extract_features sd) = List.replicate 12 0 := by
  rw [standardScaleSingle_eq_replicate, anomaly_features_length]

lemma threatStep_snd_le (acc cp : String × Rat) : acc.2 ≤ (threatStep acc cp).2 := by
  unfold threatStep
  split_ifs with h
  · exact le_of_lt h.2
  · exact le_refl _

lemma foldl_threatStep_snd_le (l : List (String × Rat)) (acc : String × Rat) :
    acc.2 ≤ (l.foldl threatStep acc).2 := by
  induction l generalizing acc with
  | nil => exact le_refl _
  | cons a t ih => exact le_trans (threatStep_snd_le acc a) (ih _)

lemma foldl_threatStep_mem_le (l : List (String × Rat)) (acc : String × Rat) :
    ∀ cp ∈ l, cp.1 ≠ "none" → cp.2 ≤ (l.foldl threatStep acc).2 := by
  induction l generalizing acc with
  | nil => intro cp hcp; exact absurd hcp (List.not_mem_nil cp)
  | cons a t ih =>
    intro cp hcp hne
    rcases List.mem_cons.mp hcp with rfl | h
    · refine le_trans ?_ (foldl_threatStep_snd_le t (threatStep acc cp))
      unfold threatStep
      split_ifs with hif
      · exact le_refl _
      · push_neg at hif
        exact hif hne
    · exact ih (threatStep acc a) cp h hne

lemma foldl_threatStep_mem_or (l : List (String × Rat)) (acc : String × Rat) :
    l.foldl threatStep acc = acc ∨ l.foldl threatStep acc ∈ l := by
  induction l generalizing acc with
  | nil => exact Or.inl rfl
  | cons a t ih =>
    rw [List.foldl_cons]
    rcases ih (threatStep acc a) with h | h
    · rw [h]
      unfold threatStep
      split_ifs
      · exact Or.inr (List.mem_cons_self _ _)
      · exact Or.inl rfl
    · exact Or.inr (List.mem_cons_of_mem _ h)

/-- C1: for every scan-data input the rule-based overall score lies in
[0,100] and the reported risk level is the closed-open bucket of that
score ([0,20) Low, [20,40) Moderate, [40,60) Medium, [60,80) High,
[80,101) Critical); the model path clamps its prediction to [0,100] and
buckets it the same way; 10 maps to Low, 50 to Medium and 100 to
Critical. -/
theorem risk_score_bounded_and_bucketed (sd : ScanData) (prediction : Rat) :
    (0 ≤ rule_based_overall_score sd ∧ rule_based_overall_score sd ≤ 100) ∧
    (rule_based_scoring sd).risk_level = bucketLevel (rule_based_overall_score sd) ∧
    (0 ≤ ml_clamped_score prediction ∧ ml_clamped_score prediction ≤ 100) ∧
    (get_risk_level (ml_clamped_score prediction)).1
      = bucketLevel (ml_clamped_score prediction) ∧
    (get_risk_level 10).1 = "Low" ∧ (get_risk_level 50).1 = "Medium" ∧
    (get_risk_level 100).1 = "Critical" := by
  obtain ⟨h0, h1⟩ := overall_score_bounds sd
  have hml0 : 0 ≤ ml_clamped_score prediction := le_max_left _ _
  have hml1 : ml_clamped_score prediction ≤ 100 :=
    max_le (by norm_num) (min_le_left _ _)
  refine ⟨⟨h0, h1⟩, ?_, ⟨hml0, hml1⟩,
    get_risk_level_eq_bucket _ hml0 (lt_of_le_of_lt hml1 (by norm_num)),
    rfl, rfl, rfl⟩
  show (get_risk_level (rule_based_overall_score sd)).1
    = bucketLevel (rule_based_overall_score sd)
  exact get_risk_level_eq_bucket _ h0 (lt_of_le_of_lt h1 (by norm_num))

/-- C2: the risk feature extractor returns exactly 31 entries for every
scan-data input, whichever optional groups are present or absent and
whatever severity strings the findings carry; as a total Lean function it
cannot raise. -/
theorem risk_feature_vector_always_31 (sd : ScanData) :
    (extract_features sd).length = 31 := by
  simp [extract_features, severityCounts, severityNames]

/-- C3 counterexample: an input matching the high-risk fixture shape
(three Critical findings, invalid SSL with two vulnerabilities, all six
required headers missing, outdated server, blacklisted domain) whose
overall score is 48, below the claimed bound of 60. -/
theorem high_shape_input_scoring_below_sixty :
    matchesHighShape bareHighShape = true ∧
    rule_based_overall_score bareHighShape < 60 := by
  refine ⟨rfl, ?_⟩
  have h : rule_based_overall_score bareHighShape = 48 := by
    norm_num +decide [rule_based_overall_score, calculate_vulnerability_score,
      calculate_compliance_score, calculate_exposure_score,
      calculate_configuration_score, calculate_content_score,
      calculate_reputation_score, header_score, ssl_score, ssl_penalty,
      ssl_invalid_penalty, ssl_vuln_penalty, missingHeaders, severityWeightStr,
      bareHighShape, emptyContent, emptySsl, emptyHeaders, emptyServer,
      emptyReputation, countSeverity]
  rw [h]
  norm_num

/-- C3 (amended): the concrete repository low-risk and high-risk test
fixtures score 32.8 and 67.85, so the low fixture stays at or below 40,
the high fixture (which matches the high-risk shape) reaches at least 60,
and the high fixture scores strictly higher than the low one. -/
theorem fixture_scores_separated :
    matchesHighShape highFixture = true ∧
    rule_based_overall_score lowFixture = 164/5 ∧
    rule_based_overall_score lowFixture ≤ 40 ∧
    rule_based_overall_score highFixture = 1357/20 ∧
    60 ≤ rule_based_overall_score highFixture ∧
    rule_based_overall_score lowFixture < rule_based_overall_score highFixture := by
  have hlow : rule_based_overall_score lowFixture = 164/5 := by
    norm_num +decide [rule_based_overall_score, calculate_vulnerability_score,
      calculate_compliance_score, calculate_exposure_score,
      calculate_configuration_score, calculate_content_score,
      calculate_reputation_score, header_score, ssl_score, ssl_penalty,
      ssl_invalid_penalty, ssl_vuln_penalty, missingHeaders, severityWeightStr,
      lowFixture, emptyContent, emptySsl, emptyHeaders, emptyServer,
      emptyReputation, countSeverity]
  have hhigh : rule_based_overall_score highFixture = 1357/20 := by
    norm_num +decide [rule_based_overall_score, calculate_vulnerability_score,
      calculate_compliance_score, calculate_exposure_score,
      calculate_configuration_score, calculate_content_score,
      calculate_reputation_score, header_score, ssl_score, ssl_penalty,
      ssl_invalid_penalty, ssl_vuln_penalty, missingHeaders, severityWeightStr,
      highFixture, emptyContent, emptySsl, emptyHeaders, emptyServer,
      emptyReputation, countSeverity]
  refine ⟨rfl, hlow, ?_, hhigh, ?_, ?_⟩
  · rw [hlow]; norm_num
  · rw [hhigh]; norm_num
  · rw [hlow, hhigh]; norm_num

/-- C4 counterexample: with invalid SSL and five SSL vulnerabilities the
total SSL deduction is 100, not capped at 50, refuting the claimed total
cap. -/
theorem ssl_penalty_exceeds_fifty :
    ssl_penalty sslInvalidFiveVulns = 100 ∧
    ¬ ssl_penalty sslInvalidFiveVulns ≤ 50 := by
  have h : ssl_penalty sslInvalidFiveVulns = 100 := by
    norm_num +decide [ssl_penalty, ssl_invalid_penalty, ssl_vuln_penalty,
      sslInvalidFiveVulns]
  rw [h]
  norm_num

/-- C4 (amended): only the 10-per-vulnerability component of the SSL
penalty is capped at 50; the 50-point deduction for invalid SSL is added
on top, so the total SSL term deducted from 100 before weighting is
bounded by 100, not by 50, and the compliance formula subtracts exactly
this total from the starting ssl_score of 100. -/
theorem ssl_penalty_component_caps (ssl : SslInfo) (sd : ScanData) :
    ssl_vuln_penalty ssl ≤ 50 ∧ ssl_penalty ssl ≤ 100 ∧
    ssl_score sd = 100 - ssl_penalty (sd.ssl.getD emptySsl) :=
  ⟨ssl_vuln_penalty_le ssl, ssl_penalty_le ssl, rfl⟩

/-- C5 counterexample: on the fallback path an input with one form and one
suspicious script is reported as a detected phishing threat with
confidence 0.5, below the 0.6 threshold the claim asserts for every
path. -/
theorem fallback_detects_below_threshold :
    fallback_detection phishLowConf =
      { threat_detected := true, primary_threat_type := "phishing",
        threat_confidence := 1/2 } ∧
    ¬ ((6/10 : Rat) ≤ (fallback_detection phishLowConf).threat_confidence) := by
  have h : fallback_detection phishLowConf =
      { threat_detected := true, primary_threat_type := "phishing",
        threat_confidence := 1/2 } := by
    norm_num +decide [fallback_detection, keywordThreatType, phishLowConf,
      emptyContent, min_def]
  rw [h]
  norm_num

/-- C5 (amended): on the model-based path threat_detected is set only when
the reported confidence reaches 0.6, the confidence bounds the model
probability of every non-none category, and a non-none primary threat is
one of the zipped category/probability pairs (the argmax); the fallback
path does not obey the 0.6 threshold, as its phishing branch can detect at
confidence 0.5. -/
theorem model_path_threshold_and_argmax (probs : List Rat) :
    ((classify_from_probs probs).threat_detected = true →
      (6/10 : Rat) ≤ (classify_from_probs probs).threat_confidence) ∧
    (∀ cp ∈ THREAT_CATEGORIES.zip probs, cp.1 ≠ "none" →
      cp.2 ≤ (classify_from_probs probs).threat_confidence) ∧
    ((classify_from_probs probs).primary_threat_type ≠ "none" →
      ((classify_from_probs probs).primary_threat_type,
        (classify_from_probs probs).threat_confidence)
        ∈ THREAT_CATEGORIES.zip probs) := by
  refine ⟨?_, ?_, ?_⟩
  · intro h
    simp only [classify_from_probs] at h
    exact of_decide_eq_true h
  · intro cp hcp hne
    simpa only [classify_from_probs, threatLoop]
      using foldl_threatStep_mem_le (THREAT_CATEGORIES.zip probs) ("none", 0) cp hcp hne
  · intro h
    simp only [classify_from_probs, threatLoop] at h ⊢
    rcases foldl_threatStep_mem_or (THREAT_CATEGORIES.zip probs) ("none", 0) with heq | hmem
    · rw [heq] at h
      exact absurd rfl h
    · rw [Prod.mk.eta]
      exact hmem

/-- C5 witness: instantiating the model path at a probability vector that
puts 0.7 on sql_injection discharges the detection hypothesis and the
non-none primary hypothesis. -/
theorem model_path_threshold_and_argmax_witness :
    (6/10 : Rat) ≤ (classify_from_probs [0, 0, 0, 7/10, 0, 0, 0, 0, 0]).threat_confidence ∧
    ((classify_from_probs [0, 0, 0, 7/10, 0, 0, 0, 0, 0]).primary_threat_type,
      (classify_from_probs [0, 0, 0, 7/10, 0, 0, 0, 0, 0]).threat_confidence)
      ∈ THREAT_CATEGORIES.zip [0, 0, 0, 7/10, 0, 0, 0, 0, 0] :=
  ⟨(model_path_threshold_and_argmax [0, 0, 0, 7/10, 0, 0, 0, 0, 0]).1
      (by norm_num +decide [classify_from_probs, threatLoop, threatStep,
        THREAT_CATEGORIES, List.zip, List.zipWith]),
   (model_path_threshold_and_argmax [0, 0, 0, 7/10, 0, 0, 0, 0, 0]).2.2
      (by norm_num +decide [classify_from_probs, threatLoop, threatStep,
        THREAT_CATEGORIES, List.zip, List.zipWith])⟩

/-- C6: evaluating the fallback at three Critical findings whose titles
contain sql (shaped as the FindingItem schema of the repository, which has a
title field and no name field) yields primary_threat_type malware, not
sql_injection, because the code reads the name dict key; duplicating the
titles into the name field yields sql_injection with confidence 0.8 as
the claim describes. -/
theorem fallback_reads_name_not_title :
    (sqlTitled.findings.all (fun f => containsSub (strLower f.title) "sql")) = true ∧
    fallback_detection sqlTitled =
      { threat_detected := true, primary_threat_type := "malware",
        threat_confidence := 8/10 } ∧
    fallback_detection sqlNamed =
      { threat_detected := true, primary_threat_type := "sql_injection",
        threat_confidence := 8/10 } := by
  exact ⟨rfl, rfl, rfl⟩

/-- C7: for any persisted model the detector returns the same boolean on
the anomalous fixture of the repository test as on its normal fixture, and on a
deliberately extreme outlier as on a point at the synthetic normal means,
because the freshly fit single-sample scaler sends every input to the zero
vector; it therefore cannot flag the outlier True and the normal point
False as the claim (and the own test of the repository) requires. -/
theorem anomaly_detector_cannot_separate (predict : List Rat → Int) :
    detect_anomalies predict anomalyOutlierFixture
      = detect_anomalies predict anomalyNormalFixture ∧
    detect_anomalies predict anomalyExtremeOutlier
      = detect_anomalies predict anomalyNearMeans := by
  constructor
  · unfold detect_anomalies
    rw [scaled_features_const anomalyOutlierFixture,
      scaled_features_const anomalyNormalFixture]
  · unfold detect_anomalies
    rw [scaled_features_const anomalyExtremeOutlier,
      scaled_features_const anomalyNearMeans]

/-- C8: detect_anomalies never propagates a failure: either the pipeline
succeeds and the wrapper returns its boolean, or some step fails and the
wrapper returns False (not anomalous). -/
theorem detect_anomalies_never_propagates
    (loadModel : Except String (List Rat → Except String Int))
    (sd : AnomalyScanData) :
    (∃ b, detect_anomalies_run loadModel sd = Except.ok b ∧
      detect_anomalies_safe loadModel sd = b) ∨
    (∃ e, detect_anomalies_run loadModel sd = Except.error e ∧
      detect_anomalies_safe loadModel sd = false) := by
  cases hrun : detect_anomalies_run loadModel sd with
  | ok b => exact Or.inl ⟨b, rfl, by simp [detect_anomalies_safe, hrun]⟩
  | error e => exact Or.inr ⟨e, rfl, by simp [detect_anomalies_safe, hrun]⟩

/-- C9: for any fixed persisted model the anomaly detector returns the
same boolean on every pair of inputs: the scaler fit on the single sample
rescales every feature vector to the zero vector, so the prediction never
depends on the scan data. -/
theorem anomaly_result_independent_of_input (predict : List Rat → Int)
    (sd1 sd2 : AnomalyScanData) :
    detect_anomalies predict sd1 = detect_anomalies predict sd2 := by
  unfold detect_anomalies
  rw [scaled_features_const sd1, scaled_features_const sd2]

/-- C10: the compliance category score is at least 20 for every input and
exactly 100 for a fully compliant scan, whose overall score is exactly 20
and risk level Moderate (never Low); dropping a single required header
lowers compliance to below 100 yet lowers the overall score to 19, which
is rated Low. -/
theorem compliance_floor_and_moderate_best (sd : ScanData) :
    20 ≤ calculate_compliance_score sd ∧
    calculate_compliance_score fullyCompliant = 100 ∧
    rule_based_overall_score fullyCompliant = 20 ∧
    (rule_based_scoring fullyCompliant).risk_level = "Moderate" ∧
    calculate_compliance_score oneHeaderShort < 100 ∧
    rule_based_overall_score oneHeaderShort < 20 ∧
    (rule_based_scoring oneHeaderShort).risk_level = "Low" := by
  have hc : calculate_compliance_score fullyCompliant = 100 := by
    norm_num +decide [calculate_compliance_score, header_score, ssl_score,
      ssl_penalty, ssl_invalid_penalty, ssl_vuln_penalty, missingHeaders,
      fullyCompliant, emptySsl, emptyHeaders]
  have hover : rule_based_overall_score fullyCompliant = 20 := by
    norm_num +decide [rule_based_overall_score, calculate_vulnerability_score,
      calculate_compliance_score, calculate_exposure_score,
      calculate_configuration_score, calculate_content_score,
      calculate_reputation_score, header_score, ssl_score, ssl_penalty,
      ssl_invalid_penalty, ssl_vuln_penalty, missingHeaders, severityWeightStr,
      fullyCompliant, emptyContent, emptySsl, emptyHeaders, emptyServer,
      emptyReputation, countSeverity]
  have hcshort : calculate_compliance_score oneHeaderShort = 95 := by
    norm_num +decide [calculate_compliance_score, header_score, ssl_score,
      ssl_penalty, ssl_invalid_penalty, ssl_vuln_penalty, missingHeaders,
      fullyCompliant, oneHeaderShort, emptySsl, emptyHeaders]
  have hshort : rule_based_overall_score oneHeaderShort = 19 := by
    norm_num +decide [rule_based_overall_score, calculate_vulnerability_score,
      calculate_compliance_score, calculate_exposure_score,
      calculate_configuration_score, calculate_content_score,
      calculate_reputation_score, header_score, ssl_score, ssl_penalty,
      ssl_invalid_penalty, ssl_vuln_penalty, missingHeaders, severityWeightStr,
      fullyCompliant, oneHeaderShort, emptyContent, emptySsl, emptyHeaders,
      emptyServer, emptyReputation, countSeverity]
  refine ⟨(compliance_score_bounds sd).1, hc, hover, ?_, ?_, ?_, ?_⟩
  · show (get_risk_level (rule_based_overall_score fullyCompliant)).1 = "Moderate"
    rw [hover]
    rfl
  · rw [hcshort]
    norm_num
  · rw [hshort]
    norm_num
  · show (get_risk_level (rule_based_overall_score oneHeaderShort)).1 = "Low"
    rw [hshort]
    rfl

end SiteAnalyser
